import Mathlib

/-!
Verification development for the dotter dotfile manager (`src/main.rs`).

The program is a single-threaded command-line tool.  We embed it shallowly:
the filesystem, environment, console input and console output are gathered in
an explicit `World` state, and each Rust function becomes a Lean function
`World → Except DotterError Unit × World`.  Rust strings are Lean `String`s
(contents compared character-wise; the programs under scrutiny only move text
files around).  Rust's string primitives that the source uses (`trim`,
`to_lowercase`, `contains` with a one-character pattern, `ends_with`,
`replace("~", home)`) are modelled by structurally recursive functions over
`String.data` so that every definition is executable and kernel-reducible.

TOML parsing (the external `toml`/`serde` crates) is out of scope of the
source: following the specification it is treated as a black-box deserializer
into the manifest shape.  A file whose bytes form a syntactically valid TOML
document is represented as `FileData.tomlDoc raw t` carrying both its raw
bytes and its parse tree `t : TomlValue`; any other file is
`FileData.text raw`.  The deserialization of a parse tree into `DootConfig`
(`dootFromToml`) follows the derived `serde::Deserialize` semantics of the
three structs in the source: every non-`Option` field is required, `Option`
fields may be absent, unknown keys are ignored.
-/

namespace Dotter

/-- ASCII whitespace, as used by the model of Rust `str::trim`. -/
def isWS (c : Char) : Bool := c = ' ' || c = '\t' || c = '\n' || c = '\r'

/-- Model of Rust `str::trim`. -/
def strTrim (s : String) : String :=
  ⟨((s.data.dropWhile isWS).reverse.dropWhile isWS).reverse⟩

/-- Model of Rust `str::to_lowercase` (ASCII range). -/
def strLower (s : String) : String := ⟨s.data.map Char.toLower⟩

/-- Model of Rust `str::contains` with a one-character pattern. -/
def strContains (s : String) (c : Char) : Bool := s.data.contains c

/-- Model of Rust `str::ends_with`. -/
def strEndsWith (s pat : String) : Bool := pat.data.isSuffixOf s.data

/-- Replace every occurrence of the character `~` by `home`. -/
def replaceChars (home : List Char) : List Char → List Char
  | [] => []
  | c :: cs =>
    if c = '~' then home ++ replaceChars home cs else c :: replaceChars home cs

/-- Model of Rust `str::replace("~", home)`, as used on install targets. -/
def replaceTilde (s home : String) : String := ⟨replaceChars home.data s.data⟩

/-- A path is absolute when it starts with `/`. -/
def isAbsolute (s : String) : Bool := s.data.head? = some '/'

/-- Model of Rust `Path::join`: an absolute right operand replaces the left. -/
def pathJoin (a b : String) : String := if isAbsolute b then b else a ++ "/" ++ b

/-- Join strings with a separator (used for Rust `Debug` rendering of `Vec`). -/
def joinWith (sep : String) : List String → String
  | [] => ""
  | [x] => x
  | x :: y :: xs => x ++ sep ++ joinWith sep (y :: xs)

/-- Model of Rust `Debug` formatting of a `Vec<String>`, e.g. `["a", "b"]`. -/
def rustDebugList (xs : List String) : String :=
  "[" ++ joinWith ", " (xs.map (fun s => "\"" ++ s ++ "\"")) ++ "]"

/-- A TOML value, the output of the black-box textual TOML parser. -/
inductive TomlValue where
  | str (s : String)
  | bool (b : Bool)
  | array (xs : List TomlValue)
  | table (kvs : List (String × TomlValue))

/-- Contents of one file.  A file that is a syntactically valid TOML document
is represented with both its raw bytes and its parse tree; every other file by
its raw bytes alone. -/
inductive FileData where
  | text (s : String)
  | tomlDoc (raw : String) (t : TomlValue)

/-- The raw bytes of a file, as returned by `read_to_string`. -/
def FileData.raw : FileData → String
  | .text s => s
  | .tomlDoc r _ => r

/-- The filesystem: an association list of file paths to contents, plus the
set of directories.  Paths are the literal strings the program builds. -/
structure FS where
  dirs : List String
  files : List (String × FileData)

/-- Contents of the file at `p`, if a file exists there. -/
def FS.readFile (fs : FS) (p : String) : Option FileData := fs.files.lookup p

/-- Whether a file exists at `p`. -/
def FS.fileExists (fs : FS) (p : String) : Bool := (fs.readFile p).isSome

/-- Write `d` at path `p`: replace the entry when the file exists, otherwise
append a new entry (`OpenOptions::create(true)` then `write_all`). -/
def FS.writeFile (fs : FS) (p : String) (d : FileData) : FS :=
  if fs.fileExists p then
    { fs with files := fs.files.map (fun kv => if kv.1 = p then (p, d) else kv) }
  else
    { fs with files := fs.files ++ [(p, d)] }

/-- Whether a directory exists at `d`. -/
def FS.dirExists (fs : FS) (d : String) : Bool := fs.dirs.contains d

/-- Model of `fs::create_dir_all` for the paths the program builds (their
parents are the working directory, so a single directory is created). -/
def FS.mkdirAll (fs : FS) (d : String) : FS :=
  if fs.dirExists d then fs else { fs with dirs := fs.dirs ++ [d] }

/-- Model of `Path::canonicalize`: succeeds exactly when the file exists, and
then yields the path itself (canonical names are not re-spelled here). -/
def FS.canonicalize (fs : FS) (p : String) : Option String :=
  if fs.fileExists p then some p else none

/-- `p` is directly inside directory `d` (no further `/` after `d ++ "/"`). -/
def isDirectChild (d p : String) : Bool :=
  (d ++ "/").data.isPrefixOf p.data && !((p.data.drop (d.data.length + 1)).contains '/')

/-- The entry name of `p` inside directory `d`. -/
def nameAfter (d p : String) : String := ⟨p.data.drop (d.data.length + 1)⟩

/-- Paths of the files directly inside `d`. -/
def FS.childFiles (fs : FS) (d : String) : List String :=
  (fs.files.map (fun kv => kv.1)).filter (isDirectChild d)

/-- Entry names of everything directly inside `d` (files, then directories),
as produced by `read_dir` in `remove`. -/
def FS.childNames (fs : FS) (d : String) : List String :=
  ((fs.files.map (fun kv => kv.1)).filter (isDirectChild d)).map (nameAfter d) ++
    (fs.dirs.filter (isDirectChild d)).map (nameAfter d)

/-- Model of `fs::remove_dir_all`: delete the directory and everything below. -/
def FS.removeDirAll (fs : FS) (d : String) : FS :=
  { dirs := fs.dirs.filter (fun x => !(x == d || (d ++ "/").data.isPrefixOf x.data)),
    files := fs.files.filter (fun kv => !((d ++ "/").data.isPrefixOf kv.1.data)) }

/-- The failure conditions of the program (the `anyhow` bail/context sites),
named after the specification's error taxonomy. -/
inductive DotterError where
  | invalidTag (tag : String)
  | alreadyExists (path : String)
  | notFound (path : String)
  | ruleCountMismatch (sources targets : Nat)
  | emptyRuleSet
  | homeUnset
  | sourceNotFound (path : String)
  | ioErr (msg : String)
  deriving DecidableEq

/-- The whole world the process interacts with: filesystem, `HOME` variable,
current directory, pending stdin lines, and the console output so far. -/
structure World where
  fs : FS
  home : Option String
  cwd : String
  stdin : List String
  log : List String

/-- The prompt `user_boolean` prints before reading a line. -/
def promptLine (question : String) (bias : Bool) : String :=
  question ++ (if bias then " [Y, n]: " else " [y, N]: ")

/-- `user_boolean` from the source: prompt, read a line, trim and lowercase
it; `y`/`n`/empty answer decide, anything else reprints a hint and loops.
Exhausted input (EOF) reads as an empty line, returning the bias.
Returns (answer, remaining stdin, printed lines). -/
def user_boolean (question : String) (bias : Bool) :
    List String → Bool × List String × List String
  | [] => (bias, [], [promptLine question bias])
  | line :: rest =>
    match strLower (strTrim line) with
    | "y" => (true, rest, [promptLine question bias])
    | "n" => (false, rest, [promptLine question bias])
    | "" => (bias, rest, [promptLine question bias])
    | _ =>
      let r := user_boolean question bias rest
      (r.1, r.2.1, promptLine question bias :: "Please use \x27y\x27, or \x27n\x27!" :: r.2.2)

/-- The `[doot]` metadata table (struct `DootItems` in the source). -/
structure DootItems where
  name : String
  topic : String
  authors : List String
  version : String

/-- The `[config]` rules table (struct `Config` in the source). -/
structure Config where
  target : List String
  source : List String
  ask : Option Bool
  debug : Option Bool

/-- A parsed manifest (struct `DootConfig` in the source). -/
structure DootConfig where
  doot : DootItems
  config : Config

/-- The package-summary line `install_config` prints. -/
def pkgSummary (d : DootItems) : String :=
  "Package:\n\tName:     " ++ d.name ++ "\n\tTopic:    " ++ d.topic ++
    "\n\tAuthors:  " ++ rustDebugList d.authors ++ "\n\tVersion:  " ++ d.version

/-- The confirmation step of `install_config`: ask the user when `ask` is
set, otherwise proceed silently. -/
def askPhase (ask : Bool) (stdin : List String) : Bool × List String × List String :=
  if ask then user_boolean "Are you sure you want to install?" true stdin
  else (true, stdin, [])

/-- One `DEBUG:` log line for a (source, target) pair. -/
def debugLine (parent home : String) (pr : String × String) : String :=
  "DEBUG: " ++ pathJoin parent pr.1 ++ " -> " ++ pathJoin parent (replaceTilde pr.2 home)

/-- The per-pair copy loop of `install_config`.  For each pair: join the
source onto the package directory and canonicalize it (must exist); join the
target after replacing `~` with the home directory.  In non-debug mode open
the source for reading and the target for writing with `create(true)` and
**without truncation** — `write_all` overwrites the first bytes and any old
tail beyond the source length survives — then log `COPY:`; in debug mode do
no I/O and log `DEBUG:`. -/
def copy_loop (debug : Bool) (home parent : String) :
    List (String × String) → World → Except DotterError Unit × World
  | [], w => (.ok (), w)
  | (s, t) :: rest, w =>
    let src := pathJoin parent s
    let tgt := pathJoin parent (replaceTilde t home)
    match w.fs.canonicalize src with
    | none => (.error (.sourceNotFound src), w)
    | some srcPath =>
      if debug then
        copy_loop debug home parent rest
          { w with log := w.log ++ ["DEBUG: " ++ srcPath ++ " -> " ++ tgt] }
      else
        match w.fs.readFile srcPath with
        | none => (.error (.sourceNotFound srcPath), w)
        | some data =>
          let oldRaw := ((w.fs.readFile tgt).map FileData.raw).getD ""
          let written : String := ⟨data.raw.data ++ oldRaw.data.drop data.raw.data.length⟩
          copy_loop debug home parent rest
            { w with
              fs := w.fs.writeFile tgt (.text written),
              log := w.log ++ ["COPY: " ++ srcPath ++ " -> " ++ tgt] }

/-- `install_config` from the source: print the package summary, run the
confirmation step, validate the rule counts, read `HOME`, then run the copy
loop over the zipped (source, target) pairs. -/
def install_config (config : DootConfig) (parent_dir : String) (w : World) :
    Except DotterError Unit × World :=
  let ask := config.config.ask.getD true
  let debug := config.config.debug.getD false
  let w1 : World := { w with log := w.log ++ [pkgSummary config.doot] }
  let res := askPhase ask w1.stdin
  let w2 : World := { w1 with stdin := res.2.1, log := w1.log ++ res.2.2 }
  if res.1 = false then
    (.ok (), { w2 with log := w2.log ++ ["Skipped..."] })
  else if config.config.source.length ≠ config.config.target.length then
    (.error (.ruleCountMismatch config.config.source.length config.config.target.length), w2)
  else if config.config.source.length = 0 then
    (.error .emptyRuleSet, w2)
  else
    match w2.home with
    | none => (.error .homeUnset, w2)
    | some home =>
      copy_loop debug home parent_dir (config.config.source.zip config.config.target) w2

/-- Look a key up in a TOML table (first binding wins). -/
def tomlLookup (kvs : List (String × TomlValue)) (k : String) : Option TomlValue :=
  kvs.lookup k

/-- Deserialize a TOML value as a string. -/
def asString : TomlValue → Option String
  | .str s => some s
  | _ => none

/-- Deserialize a TOML value as a boolean. -/
def asBoolean : TomlValue → Option Bool
  | .bool b => some b
  | _ => none

/-- Deserialize a TOML value as an array of strings. -/
def asStringList : TomlValue → Option (List String)
  | .array xs => xs.mapM asString
  | _ => none

/-- A required string field of a serde-derived struct. -/
def reqString (kvs : List (String × TomlValue)) (k : String) : Except String String :=
  match tomlLookup kvs k with
  | none => .error ("missing field " ++ k)
  | some v =>
    match asString v with
    | some s => .ok s
    | none => .error ("invalid type for field " ++ k)

/-- A required array-of-strings field of a serde-derived struct. -/
def reqStringList (kvs : List (String × TomlValue)) (k : String) :
    Except String (List String) :=
  match tomlLookup kvs k with
  | none => .error ("missing field " ++ k)
  | some v =>
    match asStringList v with
    | some xs => .ok xs
    | none => .error ("invalid type for field " ++ k)

/-- An `Option<bool>` field of a serde-derived struct: absent keys are fine,
present keys must be booleans. -/
def optBoolean (kvs : List (String × TomlValue)) (k : String) :
    Except String (Option Bool) :=
  match tomlLookup kvs k with
  | none => .ok none
  | some v =>
    match asBoolean v with
    | some b => .ok (some b)
    | none => .error ("invalid type for field " ++ k)

/-- Derived deserialization of `DootItems`: all four fields are required,
unknown keys are ignored. -/
def dootItemsFromToml (kvs : List (String × TomlValue)) : Except String DootItems := do
  let name ← reqString kvs "name"
  let topic ← reqString kvs "topic"
  let authors ← reqStringList kvs "authors"
  let version ← reqString kvs "version"
  .ok { name := name, topic := topic, authors := authors, version := version }

/-- Derived deserialization of `Config`: `target` and `source` are required,
`ask` and `debug` optional, unknown keys (such as `symlink`) are ignored. -/
def configFromToml (kvs : List (String × TomlValue)) : Except String Config := do
  let target ← reqStringList kvs "target"
  let source ← reqStringList kvs "source"
  let ask ← optBoolean kvs "ask"
  let debug ← optBoolean kvs "debug"
  .ok { target := target, source := source, ask := ask, debug := debug }

/-- Derived deserialization of `DootConfig` from a parsed TOML document: the
top level must be a table with required sub-tables `doot` and `config`. -/
def dootFromToml : TomlValue → Except String DootConfig
  | .table kvs => do
    let d ←
      match tomlLookup kvs "doot" with
      | none => Except.error "missing field doot"
      | some (.table dk) => dootItemsFromToml dk
      | some _ => Except.error "invalid type for field doot"
    let c ←
      match tomlLookup kvs "config" with
      | none => Except.error "missing field config"
      | some (.table ck) => configFromToml ck
      | some _ => Except.error "invalid type for field config"
    .ok { doot := d, config := c }
  | _ => .error "expected a table"

/-- `toml::from_str::<DootConfig>` on the contents of a file: a file that is
not a syntactically valid TOML document fails at the syntax level, a valid
document is deserialized by `dootFromToml`. -/
def parse_doot : FileData → Except String DootConfig
  | .text _ => .error "TOML syntax error"
  | .tomlDoc _ t => dootFromToml t

/-- The default tag `"default"`. -/
def DEFAULT_CONFIG_NAME : String := "default"

/-- The default manifest template written by `new`. -/
def DEFAULT_CONFIG_CONTENTS : String :=
  "[doot]\nname = \"example\"\nauthors = [\"your name\"]\nversion = \"0.0.1\"\ntopic = \"My example config for example program!\"\n\n[config]\ntarget = [\"~/.config/my_config/config.txt\"]\nsource = [\"config.txt\"]\nask = true\ndebug = true\n"

/-- Characters before the last `/` of a path, when a `/` occurs. -/
def takeBeforeLastSlash : List Char → Option (List Char)
  | [] => none
  | c :: cs =>
    match takeBeforeLastSlash cs with
    | some rest => some (c :: rest)
    | none => if c = '/' then some [] else none

/-- Model of Rust `Path::parent` for the relative paths the program builds. -/
def parentPath (p : String) : Option String :=
  if p.data = [] then none
  else
    match takeBeforeLastSlash p.data with
    | some l => some ⟨l⟩
    | none => some ""

/-- `make_new_doot` from the source: create the parent directory, then open
the manifest with `create_new(true)` — exclusive creation, failing with
`AlreadyExists` when the file is already there — and write the template. -/
def make_new_doot (file_name : String) (w : World) : Except DotterError Unit × World :=
  match parentPath file_name with
  | none => (.error (.ioErr "Could not get parent"), w)
  | some parent =>
    let w1 : World := { w with fs := w.fs.mkdirAll parent }
    if w1.fs.fileExists file_name then
      (.error (.alreadyExists file_name), w1)
    else
      (.ok (), { w1 with fs := w1.fs.writeFile file_name (.text DEFAULT_CONFIG_CONTENTS) })

/-- `new` from the source: refuse tags containing `.`, otherwise scaffold
`./{tag}/{tag}.toml`. -/
def new (config_file : String) (w : World) : Except DotterError Unit × World :=
  let w1 : World := { w with log := w.log ++ ["New config file " ++ config_file] }
  if strContains config_file '.' then
    (.error (.invalidTag config_file), w1)
  else
    make_new_doot ("./" ++ config_file ++ "/" ++ config_file ++ ".toml") w1

/-- `remove` from the source: list the entries of `./{tag}` (failing when the
directory does not exist), confirm with bias "no", and only on a `y` answer
delete the directory tree. -/
def remove (config_file : String) (w : World) : Except DotterError Unit × World :=
  let w1 : World := { w with log := w.log ++ ["Removing Config: " ++ config_file] }
  let full := "./" ++ config_file
  if w1.fs.dirExists full = false then
    (.error (.notFound full), w1)
  else
    let names := w1.fs.childNames full
    let w2 : World := { w1 with log := w1.log ++ ["Removing: " ++ rustDebugList names] }
    let r := user_boolean "Are you sure you want to remove these files" false w2.stdin
    let w3 : World := { w2 with stdin := r.2.1, log := w2.log ++ r.2.2 }
    if r.1 = false then
      (.ok (), { w3 with log := w3.log ++ ["Canceled"] })
    else
      (.ok (), { w3 with
        fs := w3.fs.removeDirAll full,
        log := w3.log ++ ["Deleting Files..."] })

/-- The warning `install` logs when a discovered manifest fails to parse. -/
def skipLine (f err : String) : String :=
  "Not valid doot file: \x27" ++ f ++ ": Skipping... \n" ++ err

/-- The per-manifest loop of `install`: read and parse each discovered file;
on parse failure log a warning and continue with the next one; on a parsed
manifest run `install_config`, whose error — via the `?` operator in the
source — aborts the whole loop. -/
def install_loop (parent : String) :
    List String → World → Except DotterError Unit × World
  | [], w => (.ok (), w)
  | f :: rest, w =>
    match w.fs.readFile f with
    | none => (.error (.ioErr ("open " ++ f)), w)
    | some fd =>
      match parse_doot fd with
      | .error err =>
        install_loop parent rest { w with log := w.log ++ [skipLine f err] }
      | .ok config =>
        match install_config config parent w with
        | (.ok _, w2) => install_loop parent rest w2
        | (.error e, w2) => (.error e, w2)

/-- Manifest discovery inside `install`: the non-directory entries of the tag
directory whose names end in `.toml`, in directory order. -/
def discover (fs : FS) (d : String) : List String :=
  (fs.childFiles d).filter (fun p => strEndsWith (nameAfter d p) ".toml")

/-- `install` from the source: refuse tags containing `.`, list the tag
directory (failing when it does not exist), report the discovered manifests,
and run the per-manifest loop with `{current_dir}/{tag}` as package root. -/
def install (config_file : String) (w : World) : Except DotterError Unit × World :=
  if strContains config_file '.' then
    (.error (.invalidTag config_file), w)
  else if w.fs.dirExists config_file = false then
    (.error (.notFound config_file), w)
  else
    let doots := discover w.fs config_file
    let w1 : World := { w with log := w.log ++ ["Found toml files: " ++ rustDebugList doots] }
    install_loop (w.cwd ++ "/" ++ config_file) doots w1

/-- The command surface of the binary. -/
inductive Command where
  | newCmd (config_name : Option String)
  | removeCmd (config_name : String)
  | installCmd (config_name : Option String)
  | listCmd

/-- The dispatch in `main`: `new` and `install` default the tag to
`"default"` (the `list` command is out of scope of the claims and elided to a
no-op result here). -/
def runCommand (c : Command) (w : World) : Except DotterError Unit × World :=
  match c with
  | .newCmd n => new (n.getD DEFAULT_CONFIG_NAME) w
  | .removeCmd n => remove n w
  | .installCmd n => install (n.getD DEFAULT_CONFIG_NAME) w
  | .listCmd => (.ok (), w)

/-! ## Helper lemmas -/

/-- `mkdirAll` never touches the files. -/
theorem mkdirAll_files (fs : FS) (d : String) : (fs.mkdirAll d).files = fs.files := by
  unfold FS.mkdirAll
  split <;> rfl

/-- `mkdirAll` on a missing directory appends it. -/
theorem mkdirAll_dirs_new (fs : FS) (d : String) (h : fs.dirExists d = false) :
    (fs.mkdirAll d).dirs = fs.dirs ++ [d] := by
  unfold FS.mkdirAll
  rw [h]
  simp

/-- `mkdirAll` on an existing directory is the identity. -/
theorem mkdirAll_exists (fs : FS) (d : String) (h : fs.dirExists d = true) :
    fs.mkdirAll d = fs := by
  unfold FS.mkdirAll
  rw [h]
  simp

/-- Writing a fresh file appends its entry. -/
theorem writeFile_new (fs : FS) (p : String) (d : FileData)
    (h : fs.fileExists p = false) :
    (fs.writeFile p d).files = fs.files ++ [(p, d)] := by
  unfold FS.writeFile
  rw [h]
  simp

/-- Association-list lookup walks into the right part when the left part has
no binding for the key. -/
theorem lookup_append_of_none {α β : Type} [BEq α] (l₁ l₂ : List (α × β)) (k : α)
    (h : l₁.lookup k = none) : (l₁ ++ l₂).lookup k = l₂.lookup k := by
  induction l₁ with
  | nil => rfl
  | cons kv l ih =>
    obtain ⟨a, b⟩ := kv
    rw [List.lookup_cons] at h
    rw [List.cons_append, List.lookup_cons]
    cases hk : k == a with
    | true => rw [hk] at h; simp at h
    | false =>
      rw [hk] at h
      exact ih h

/-- An element is contained in a list it is appended to. -/
theorem contains_append_self (l : List String) (a : String) :
    (l ++ [a]).contains a = true := by
  simp [List.contains, List.elem_iff]

/-! ## Claim C1 -/

/-- A world with a source file `/pkg/config.txt` containing `"new"` and a
pre-existing longer target `/home/u/old.txt` containing `"OLDLONGER"`. -/
def W_C1 : World :=
  ⟨⟨[], [("/pkg/config.txt", .text "new"), ("/home/u/old.txt", .text "OLDLONGER")]⟩,
    some "/home/u", "/", [], []⟩

/-- A manifest copying `config.txt` onto `~/old.txt` in normal mode. -/
def cfg_C1 : DootConfig :=
  ⟨⟨"pkg", "t", ["a"], "1"⟩, ⟨["~/old.txt"], ["config.txt"], some false, some false⟩⟩

/-- Claim C1: in normal mode each target is opened for writing with creation
and truncation so that after a successful install the target's contents equal
the source's byte-for-byte, even when the target pre-existed with longer
contents.  The code opens the target without truncation
(`OpenOptions::new().write(true).create(true)`), so the install succeeds but
the pre-existing longer target keeps its old tail: copying `"new"` over
`"OLDLONGER"` leaves `"newLONGER"`, which differs from the source contents. -/
theorem C1_copy_not_truncated_bug :
    (install_config cfg_C1 "/pkg" W_C1).1 = .ok () ∧
    W_C1.fs.readFile "/pkg/config.txt" = some (.text "new") ∧
    (install_config cfg_C1 "/pkg" W_C1).2.fs.readFile "/home/u/old.txt"
      = some (.text "newLONGER") ∧
    (install_config cfg_C1 "/pkg" W_C1).2.fs.readFile "/home/u/old.txt"
      ≠ some (.text "new") := by
  refine ⟨rfl, rfl, rfl, ?_⟩
  intro h
  rw [show (install_config cfg_C1 "/pkg" W_C1).2.fs.readFile "/home/u/old.txt"
      = some (.text "newLONGER") from rfl] at h
  simp at h

/-! ## Claim C6 -/

/-- Claim C6: for every tag containing a `.`, both `new` and `install` fail
with `InvalidTag` and perform no filesystem mutation. -/
theorem C6_dot_tag_rejected_no_mutation (t : String) (w : World)
    (h : strContains t '.' = true) :
    (new t w).1 = .error (.invalidTag t) ∧ (new t w).2.fs = w.fs ∧
    (install t w).1 = .error (.invalidTag t) ∧ (install t w).2.fs = w.fs := by
  unfold new install
  simp [h]

/-- A world for exercising claim C6 concretely. -/
def W_C6 : World := ⟨⟨["x"], [("x/y.toml", .text "q")]⟩, none, ".", [], []⟩

/-- Witness for C6 at the concrete tag `"a.b"`. -/
theorem C6_witness :
    (new "a.b" W_C6).1 = .error (.invalidTag "a.b") ∧
    (new "a.b" W_C6).2.fs = W_C6.fs ∧
    (install "a.b" W_C6).1 = .error (.invalidTag "a.b") ∧
    (install "a.b" W_C6).2.fs = W_C6.fs :=
  C6_dot_tag_rejected_no_mutation "a.b" W_C6 rfl

/-! ## Claim C4 -/

/-- Claim C4: once `install_config` proceeds past the confirmation step, a
source/target length mismatch fails with `RuleCountMismatch` carrying both
exact counts, and empty rule lists fail with `EmptyRuleSet`; in both cases
before any file is opened, so the filesystem is untouched. -/
theorem C4_count_validation_before_io (cfg : DootConfig) (p : String) (w : World)
    (hask : (askPhase (cfg.config.ask.getD true) w.stdin).1 = true) :
    (cfg.config.source.length ≠ cfg.config.target.length →
      (install_config cfg p w).1
          = .error (.ruleCountMismatch cfg.config.source.length cfg.config.target.length) ∧
      (install_config cfg p w).2.fs = w.fs) ∧
    (cfg.config.source = [] ∧ cfg.config.target = [] →
      (install_config cfg p w).1 = .error .emptyRuleSet ∧
      (install_config cfg p w).2.fs = w.fs) := by
  constructor
  · intro hne
    unfold install_config
    simp [hask, hne]
  · rintro ⟨hs, ht⟩
    unfold install_config
    simp [hask, hs, ht]

/-- A manifest with two sources and one target. -/
def cfg_C4a : DootConfig :=
  ⟨⟨"n", "t", ["a"], "1"⟩, ⟨["t1"], ["s1", "s2"], some false, none⟩⟩

/-- A manifest with no rules at all. -/
def cfg_C4b : DootConfig :=
  ⟨⟨"n", "t", ["a"], "1"⟩, ⟨[], [], some false, none⟩⟩

/-- A world for exercising claim C4 concretely. -/
def W_C4 : World := ⟨⟨[], [("/p/s1", .text "x")]⟩, some "/h", ".", [], []⟩

/-- Witness for C4: a 2-source/1-target manifest fails with the two counts,
an empty manifest fails with `EmptyRuleSet`, both leaving the files alone. -/
theorem C4_witness :
    ((install_config cfg_C4a "/p" W_C4).1 = .error (.ruleCountMismatch 2 1) ∧
      (install_config cfg_C4a "/p" W_C4).2.fs = W_C4.fs) ∧
    ((install_config cfg_C4b "/p" W_C4).1 = .error .emptyRuleSet ∧
      (install_config cfg_C4b "/p" W_C4).2.fs = W_C4.fs) :=
  ⟨(C4_count_validation_before_io cfg_C4a "/p" W_C4 rfl).1 (by decide),
    (C4_count_validation_before_io cfg_C4b "/p" W_C4 rfl).2 ⟨rfl, rfl⟩⟩

/-! ## Claim C2 -/

/-- A manifest whose single target contains no `~` at all. -/
def cfg_C2 : DootConfig :=
  ⟨⟨"n", "t", ["a"], "1"⟩, ⟨["/abs/t.txt"], ["s.txt"], some false, some false⟩⟩

/-- A world with the source present but no `HOME` variable. -/
def W_C2 : World := ⟨⟨[], [("/pkg/s.txt", .text "x")]⟩, none, ".", [], []⟩

/-- Counterexample to claim C2: no target of this manifest contains `~`, yet
with `HOME` unset `install_config` still fails with `HomeUnset` — the code
reads the variable unconditionally before the copy loop. -/
theorem C2_counterexample :
    cfg_C2.config.target.all (fun t => !(strContains t '~')) = true ∧
    W_C2.home = none ∧
    (install_config cfg_C2 "/pkg" W_C2).1 = .error .homeUnset := by
  refine ⟨rfl, rfl, rfl⟩

/-- Claim C2 as amended: whenever `install_config` proceeds past the
confirmation step and the rule-count validation, an unset `HOME` makes it
fail with `HomeUnset` — regardless of whether any target contains `~` — and
the filesystem is untouched. -/
theorem C2_amended_home_always_required (cfg : DootConfig) (p : String) (w : World)
    (hask : (askPhase (cfg.config.ask.getD true) w.stdin).1 = true)
    (hlen : cfg.config.source.length = cfg.config.target.length)
    (hnz : cfg.config.source.length ≠ 0)
    (hhome : w.home = none) :
    (install_config cfg p w).1 = .error .homeUnset ∧
    (install_config cfg p w).2.fs = w.fs := by
  have ht : ¬ cfg.config.target = [] := by
    intro he
    apply hnz
    rw [hlen, he]
    rfl
  unfold install_config
  simp [hask, hlen, hhome, ht]

/-- Witness for the amended C2 at the concrete tilde-free manifest. -/
theorem C2_amended_witness :
    (install_config cfg_C2 "/pkg" W_C2).1 = .error .homeUnset ∧
    (install_config cfg_C2 "/pkg" W_C2).2.fs = W_C2.fs :=
  C2_amended_home_always_required cfg_C2 "/pkg" W_C2 rfl rfl (by decide) rfl

/-! ## Claim C7 -/

/-- Claim C7: `remove` on a missing directory fails with `NotFound`; on an
existing directory the confirmation prompt is the bias-"no" one (so an empty
input line cancels), and a declined prompt reports cancellation and leaves
the filesystem — the directory and all its contents — unchanged. -/
theorem C7_remove_notfound_and_decline (tag : String) (w : World) :
    (w.fs.dirExists ("./" ++ tag) = false →
      (remove tag w).1 = .error (.notFound ("./" ++ tag)) ∧
      (remove tag w).2.fs = w.fs) ∧
    (w.fs.dirExists ("./" ++ tag) = true →
      (user_boolean "Are you sure you want to remove these files" false w.stdin).1 = false →
      (remove tag w).1 = .ok () ∧
      (remove tag w).2.fs = w.fs ∧
      "Canceled" ∈ (remove tag w).2.log) ∧
    (∀ q rest, (user_boolean q false ("" :: rest)).1 = false) := by
  refine ⟨?_, ?_, ?_⟩
  · intro h
    unfold remove
    simp [h]
  · intro h hdecl
    unfold remove
    simp [h, hdecl]
  · intro q rest
    rfl

/-- A world holding directory `./cfg` with one manifest, and a pending empty
input line. -/
def W_C7 : World :=
  ⟨⟨["./cfg"], [("./cfg/cfg.toml", .text "z")]⟩, none, ".", [""], []⟩

/-- An empty world without the directory. -/
def W_C7b : World := ⟨⟨[], []⟩, none, ".", [], []⟩

/-- Witness for C7: an empty input line (bias "no") cancels and mutates
nothing; a missing directory yields `NotFound`. -/
theorem C7_witness :
    ((remove "cfg" W_C7).1 = .ok () ∧
      (remove "cfg" W_C7).2.fs = W_C7.fs ∧
      "Canceled" ∈ (remove "cfg" W_C7).2.log) ∧
    ((remove "nope" W_C7b).1 = .error (.notFound "./nope") ∧
      (remove "nope" W_C7b).2.fs = W_C7b.fs) :=
  ⟨(C7_remove_notfound_and_decline "cfg" W_C7).2.1 rfl rfl,
    (C7_remove_notfound_and_decline "nope" W_C7b).1 rfl⟩

/-! ## Claim C5 -/

/-- The `[doot]` table of the symlink-requesting manifest. -/
def dootT_C5 : List (String × TomlValue) :=
  [("name", .str "x"), ("topic", .str "y"), ("authors", .array [.str "a"]),
    ("version", .str "1")]

/-- A manifest whose `[config]` table sets `symlink = true`. -/
def symCfgT : TomlValue :=
  .table [("doot", .table dootT_C5),
    ("config", .table [("target", .array [.str "out5.txt"]),
      ("source", .array [.str "src5.txt"]),
      ("symlink", .bool true),
      ("ask", .bool false)])]

/-- A world with the symlink-requesting manifest and its source file. -/
def W_C5 : World :=
  ⟨⟨["pkg"], [("pkg/m.toml", .tomlDoc "" symCfgT), ("./pkg/src5.txt", .text "data5")]⟩,
    some "/h", ".", [], []⟩

/-- Counterexample to claim C5: a manifest requesting `symlink = true` does
not make `install` fail with a `NotImplemented` error — the final schema has
no `symlink` field, the unknown key is ignored by deserialization, and the
files are silently copied. -/
theorem C5_counterexample :
    (install "pkg" W_C5).1 = .ok () ∧
    (install "pkg" W_C5).2.fs.readFile "./pkg/out5.txt" = some (.text "data5") :=
  ⟨rfl, rfl⟩

/-- Claim C5 as amended: the manifest schema of the code has no `symlink`
option at all; a `symlink` key in the `[config]` table is ignored by
deserialization — parsing, and hence installation, proceeds exactly as if
the key were absent, copying the files rather than failing. -/
theorem C5_amended_symlink_key_ignored (v : TomlValue)
    (dk ck : List (String × TomlValue)) :
    dootFromToml (.table [("doot", .table dk), ("config", .table (("symlink", v) :: ck))])
      = dootFromToml (.table [("doot", .table dk), ("config", .table ck)]) := by
  have hc : configFromToml (("symlink", v) :: ck) = configFromToml ck := by
    unfold configFromToml reqStringList optBoolean tomlLookup
    rw [List.lookup_cons, List.lookup_cons, List.lookup_cons, List.lookup_cons]
    simp
  unfold dootFromToml tomlLookup
  simp [List.lookup_cons, hc]

/-! ## Claim C3 -/

/-- The `[doot]` table shared by the two C3 manifests. -/
def dootT_C3 : List (String × TomlValue) :=
  [("name", .str "x"), ("topic", .str "y"), ("authors", .array [.str "a"]),
    ("version", .str "1")]

/-- A manifest with one source but two targets: it parses, and then
`install_config` fails with a rule-count mismatch. -/
def badCfgT_C3 : TomlValue :=
  .table [("doot", .table dootT_C3),
    ("config", .table [("target", .array [.str "t1", .str "t2"]),
      ("source", .array [.str "s1"]),
      ("ask", .bool false)])]

/-- A perfectly installable manifest copying `src.txt` to `out.txt`. -/
def goodCfgT_C3 : TomlValue :=
  .table [("doot", .table dootT_C3),
    ("config", .table [("target", .array [.str "out.txt"]),
      ("source", .array [.str "src.txt"]),
      ("ask", .bool false)])]

/-- A batch of two manifests: the mismatched one is discovered first, the
installable one second. -/
def W_C3 : World :=
  ⟨⟨["demo"], [("demo/a.toml", .tomlDoc "" badCfgT_C3),
      ("demo/b.toml", .tomlDoc "" goodCfgT_C3),
      ("./demo/src.txt", .text "hello")]⟩,
    some "/home/u", ".", [], []⟩

/-- The same world with only the installable manifest. -/
def W_C3b : World :=
  ⟨⟨["demo"], [("demo/b.toml", .tomlDoc "" goodCfgT_C3),
      ("./demo/src.txt", .text "hello")]⟩,
    some "/home/u", ".", [], []⟩

/-- Counterexample to claim C3: a fatal per-manifest error does abort the
batch.  The first manifest fails with a rule-count mismatch and the second,
although it installs perfectly when alone, is never installed. -/
theorem C3_counterexample :
    (install "demo" W_C3).1 = .error (.ruleCountMismatch 1 2) ∧
    (install "demo" W_C3).2.fs.readFile "./demo/out.txt" = none ∧
    (install "demo" W_C3b).1 = .ok () ∧
    (install "demo" W_C3b).2.fs.readFile "./demo/out.txt" = some (.text "hello") :=
  ⟨rfl, rfl, rfl, rfl⟩

/-- Claim C3 as amended: a parse failure of one discovered manifest is logged
and the loop continues with the remaining manifests, but a fatal
`install_config` error (rule-count mismatch, empty rule set, missing source,
unset home) propagates through the `?` operator and aborts the remaining
manifests of the batch. -/
theorem C3_amended_parse_skips_fatal_aborts (parent f : String)
    (rest : List String) (w : World) :
    (∀ fd err, w.fs.readFile f = some fd → parse_doot fd = .error err →
      install_loop parent (f :: rest) w
        = install_loop parent rest { w with log := w.log ++ [skipLine f err] }) ∧
    (∀ fd cfg e w2, w.fs.readFile f = some fd → parse_doot fd = .ok cfg →
      install_config cfg parent w = (.error e, w2) →
      install_loop parent (f :: rest) w = (.error e, w2)) := by
  constructor
  · intro fd err hread hparse
    simp only [install_loop, hread, hparse]
  · intro fd cfg e w2 hread hparse hic
    simp only [install_loop, hread, hparse, hic]

/-- An unparsable manifest followed by an installable one. -/
def W_C3c : World :=
  ⟨⟨["demo"], [("demo/a.toml", .text "not toml at all"),
      ("demo/b.toml", .tomlDoc "" goodCfgT_C3),
      ("./demo/src.txt", .text "hello")]⟩,
    some "/home/u", ".", [], []⟩

/-- Witness for the amended C3: a syntactically invalid first manifest is
skipped with a warning (and the batch goes on to install the second), while
the mismatched first manifest of `W_C3` aborts with its error. -/
theorem C3_amended_witness :
    (install_loop "./demo" ["demo/a.toml", "demo/b.toml"] W_C3c
        = install_loop "./demo" ["demo/b.toml"]
            { W_C3c with
              log := W_C3c.log ++ [skipLine "demo/a.toml" "TOML syntax error"] }) ∧
    (install_loop "./demo" ["demo/a.toml", "demo/b.toml"] W_C3
        = (.error (.ruleCountMismatch 1 2),
            (install_config (DootConfig.mk ⟨"x", "y", ["a"], "1"⟩
              ⟨["t1", "t2"], ["s1"], some false, none⟩) "./demo" W_C3).2)) :=
  ⟨(C3_amended_parse_skips_fatal_aborts "./demo" "demo/a.toml" ["demo/b.toml"] W_C3c).1
      (.text "not toml at all") "TOML syntax error" rfl rfl,
    (C3_amended_parse_skips_fatal_aborts "./demo" "demo/a.toml" ["demo/b.toml"] W_C3).2
      (.tomlDoc "" badCfgT_C3)
      (DootConfig.mk ⟨"x", "y", ["a"], "1"⟩ ⟨["t1", "t2"], ["s1"], some false, none⟩)
      (.ruleCountMismatch 1 2) _ rfl rfl rfl⟩

/-! ## Claim C10 -/

/-- Claim C10: every `[doot]` metadata field — `name`, `topic`, `authors`,
`version` — is required; a manifest omitting any of them fails
deserialization, and `install` then skips it with a warning, never invoking
`install_config` on it. -/
theorem C10_doot_fields_required (dk ck : List (String × TomlValue))
    (hmiss : tomlLookup dk "name" = none ∨ tomlLookup dk "topic" = none ∨
      tomlLookup dk "authors" = none ∨ tomlLookup dk "version" = none) :
    (∃ e, dootFromToml (.table [("doot", .table dk), ("config", .table ck)])
        = .error e) ∧
    (∀ parent f rest w raw e,
      w.fs.readFile f
          = some (.tomlDoc raw (.table [("doot", .table dk), ("config", .table ck)])) →
      dootFromToml (.table [("doot", .table dk), ("config", .table ck)]) = .error e →
      install_loop parent (f :: rest) w
        = install_loop parent rest { w with log := w.log ++ [skipLine f e] }) := by
  constructor
  · have hitems : ∃ e, dootItemsFromToml dk = .error e := by
      rcases hmiss with h | h | h | h
      · have hx : reqString dk "name" = .error ("missing field " ++ "name") := by
          unfold reqString
          rw [h]
        exact ⟨_, by unfold dootItemsFromToml; rw [hx]; rfl⟩
      · have hx : reqString dk "topic" = .error ("missing field " ++ "topic") := by
          unfold reqString
          rw [h]
        cases hn : reqString dk "name" with
        | error e => exact ⟨e, by unfold dootItemsFromToml; rw [hn]; rfl⟩
        | ok s => exact ⟨_, by unfold dootItemsFromToml; rw [hn, hx]; rfl⟩
      · have hx : reqStringList dk "authors" = .error ("missing field " ++ "authors") := by
          unfold reqStringList
          rw [h]
        cases hn : reqString dk "name" with
        | error e => exact ⟨e, by unfold dootItemsFromToml; rw [hn]; rfl⟩
        | ok s =>
          cases ht : reqString dk "topic" with
          | error e => exact ⟨e, by unfold dootItemsFromToml; rw [hn, ht]; rfl⟩
          | ok s2 => exact ⟨_, by unfold dootItemsFromToml; rw [hn, ht, hx]; rfl⟩
      · have hx : reqString dk "version" = .error ("missing field " ++ "version") := by
          unfold reqString
          rw [h]
        cases hn : reqString dk "name" with
        | error e => exact ⟨e, by unfold dootItemsFromToml; rw [hn]; rfl⟩
        | ok s =>
          cases ht : reqString dk "topic" with
          | error e => exact ⟨e, by unfold dootItemsFromToml; rw [hn, ht]; rfl⟩
          | ok s2 =>
            cases ha : reqStringList dk "authors" with
            | error e => exact ⟨e, by unfold dootItemsFromToml; rw [hn, ht, ha]; rfl⟩
            | ok xs => exact ⟨_, by unfold dootItemsFromToml; rw [hn, ht, ha, hx]; rfl⟩
    obtain ⟨e, he⟩ := hitems
    refine ⟨e, ?_⟩
    unfold dootFromToml tomlLookup
    simp [List.lookup_cons, he]
    rfl
  · intro parent f rest w raw e hread hparse
    simp only [install_loop, hread, parse_doot, hparse]

/-- A `[doot]` table without the `topic` field. -/
def dkNoTopic : List (String × TomlValue) :=
  [("name", .str "x"), ("authors", .array [.str "a"]), ("version", .str "1")]

/-- A world whose only manifest omits `topic`. -/
def W_C10 : World :=
  ⟨⟨["demo"],
      [("demo/a.toml",
        .tomlDoc "" (.table [("doot", .table dkNoTopic), ("config", .table [])]))]⟩,
    some "/h", ".", [], []⟩

/-- Witness for C10 at a manifest missing `topic`: deserialization rejects it
and the install loop skips it with the warning line. -/
theorem C10_witness :
    (∃ e, dootFromToml (.table [("doot", .table dkNoTopic), ("config", .table [])])
        = .error e) ∧
    install_loop "./demo" ["demo/a.toml"] W_C10
      = install_loop "./demo" []
          { W_C10 with
            log := W_C10.log ++ [skipLine "demo/a.toml" "missing field topic"] } :=
  ⟨(C10_doot_fields_required dkNoTopic [] (Or.inr (Or.inl rfl))).1,
    (C10_doot_fields_required dkNoTopic [] (Or.inr (Or.inl rfl))).2
      "./demo" "demo/a.toml" [] W_C10 "" "missing field topic" rfl rfl⟩

/-! ## Claim C8 -/

/-- In debug mode the copy loop performs no write at all, and when it
succeeds its log grows by exactly one `DEBUG:` line per pair, in order. -/
theorem copy_loop_debug_behavior (home p : String) (prs : List (String × String)) :
    ∀ w : World,
      (copy_loop true home p prs w).2.fs = w.fs ∧
      ((copy_loop true home p prs w).1 = .ok () →
        (copy_loop true home p prs w).2.log = w.log ++ prs.map (debugLine p home)) := by
  induction prs with
  | nil =>
    intro w
    exact ⟨rfl, fun _ => by simp [copy_loop]⟩
  | cons pr rest ih =>
    intro w
    obtain ⟨s, t⟩ := pr
    cases hc : w.fs.canonicalize (pathJoin p s) with
    | none =>
      constructor
      · simp only [copy_loop, hc]
      · intro hok
        simp only [copy_loop, hc] at hok
        cases hok
    | some sp =>
      have hsp : sp = pathJoin p s := by
        unfold FS.canonicalize at hc
        split at hc
        · cases hc
          rfl
        · cases hc
      constructor
      · simp only [copy_loop, hc, if_pos]
        exact (ih _).1
      · intro hok
        simp only [copy_loop, hc, if_pos] at hok ⊢
        rw [(ih _).2 hok]
        simp [debugLine, hsp]
    
/-- Claim C8: for a manifest with `debug = true`, `install_config` performs
zero file writes, and on a successful confirmed run its log grows by the
package summary, the prompt output, and then exactly one `DEBUG:` line per
declared (source, target) pair, in declaration order. -/
theorem C8_debug_no_writes_one_line_per_pair (cfg : DootConfig) (p home : String)
    (w : World)
    (hdbg : cfg.config.debug = some true)
    (hhome : w.home = some home)
    (hask : (askPhase (cfg.config.ask.getD true) w.stdin).1 = true)
    (hok : (install_config cfg p w).1 = .ok ()) :
    (install_config cfg p w).2.fs = w.fs ∧
    (install_config cfg p w).2.log =
      w.log ++ [pkgSummary cfg.doot]
        ++ (askPhase (cfg.config.ask.getD true) w.stdin).2.2
        ++ (cfg.config.source.zip cfg.config.target).map (debugLine p home) := by
  by_cases hlen : cfg.config.source.length = cfg.config.target.length
  · by_cases hz : cfg.config.source.length = 0
    · exfalso
      have htz : cfg.config.target = [] := List.length_eq_zero.mp (hlen ▸ hz)
      unfold install_config at hok
      simp [hask, hlen, hz, htz] at hok
    · have htz : ¬ cfg.config.target = [] := by
        intro he
        exact hz (by rw [hlen, he]; rfl)
      unfold install_config at hok ⊢
      rw [hdbg] at hok ⊢
      simp only [Option.getD_some] at hok ⊢
      simp only [hask, hlen, hz, hhome] at hok ⊢
      simp [htz] at hok ⊢
      constructor
      · exact (copy_loop_debug_behavior home p _ _).1
      · rw [(copy_loop_debug_behavior home p _ _).2 hok]
        simp
  · exfalso
    unfold install_config at hok
    simp [hask, hlen] at hok

/-- A two-pair manifest in debug mode with confirmation disabled. -/
def cfg_C8 : DootConfig :=
  ⟨⟨"n", "t", ["a"], "1"⟩, ⟨["o1", "o2"], ["a1", "a2"], some false, some true⟩⟩

/-- A world holding both source files of `cfg_C8`. -/
def W_C8 : World :=
  ⟨⟨[], [("/p/a1", .text "x"), ("/p/a2", .text "y")]⟩, some "/h", ".", [], []⟩

/-- Witness for C8 at the concrete two-pair debug manifest. -/
theorem C8_witness :
    (install_config cfg_C8 "/p" W_C8).2.fs = W_C8.fs ∧
    (install_config cfg_C8 "/p" W_C8).2.log =
      W_C8.log ++ [pkgSummary cfg_C8.doot]
        ++ (askPhase (cfg_C8.config.ask.getD true) W_C8.stdin).2.2
        ++ (cfg_C8.config.source.zip cfg_C8.config.target).map (debugLine "/p" "/h") :=
  C8_debug_no_writes_one_line_per_pair cfg_C8 "/p" "/h" W_C8 rfl rfl rfl rfl

/-! ## Claim C9 -/

/-- A slash-free character list has no part before a last slash. -/
theorem takeBeforeLastSlash_of_no_slash (l : List Char) (h : '/' ∉ l) :
    takeBeforeLastSlash l = none := by
  induction l with
  | nil => rfl
  | cons c cs ih =>
    have hc : ¬ c = '/' := by
      intro he
      exact h (by rw [he]; exact List.mem_cons_self _ _)
    have hcs : '/' ∉ cs := fun hm => h (List.mem_cons_of_mem c hm)
    unfold takeBeforeLastSlash
    rw [ih hcs]
    simp [hc]

/-- The part before the last slash of `l₁ ++ '/' :: l₂` is `l₁` when `l₂` is
slash-free. -/
theorem takeBeforeLastSlash_append (l₁ l₂ : List Char) (h : '/' ∉ l₂) :
    takeBeforeLastSlash (l₁ ++ '/' :: l₂) = some l₁ := by
  induction l₁ with
  | nil =>
    rw [List.nil_append]
    unfold takeBeforeLastSlash
    rw [takeBeforeLastSlash_of_no_slash l₂ h]
    simp
  | cons c cs ih =>
    rw [List.cons_append]
    unfold takeBeforeLastSlash
    rw [ih]

/-- The parent of `./{t}/{t}.toml` is `./{t}` for a slash-free tag `t`. -/
theorem parentPath_manifest (t : String) (h : '/' ∉ t.data) :
    parentPath ("./" ++ t ++ "/" ++ t ++ ".toml") = some ("./" ++ t) := by
  have hdata : ("./" ++ t ++ "/" ++ t ++ ".toml").data
      = ('.' :: '/' :: t.data) ++ '/' :: (t.data ++ ['.', 't', 'o', 'm', 'l']) := by
    have hsteps : ("./" ++ t ++ "/" ++ t ++ ".toml").data
        = "./".data ++ t.data ++ "/".data ++ t.data ++ ".toml".data := rfl
    rw [hsteps]
    rw [show "./".data = ['.', '/'] from rfl, show "/".data = ['/'] from rfl,
      show ".toml".data = ['.', 't', 'o', 'm', 'l'] from rfl]
    simp
  have htail : '/' ∉ t.data ++ ['.', 't', 'o', 'm', 'l'] := by
    intro hm
    rcases List.mem_append.mp hm with h1 | h1
    · exact h h1
    · revert h1
      decide
  unfold parentPath
  rw [hdata, takeBeforeLastSlash_append _ _ htail]
  simp
  rfl

/-- `mkdirAll` keeps every file-existence fact. -/
theorem mkdirAll_fileExists (fs : FS) (d p : String) :
    (fs.mkdirAll d).fileExists p = fs.fileExists p := by
  unfold FS.fileExists FS.readFile
  rw [mkdirAll_files]

/-- `writeFile` never touches the directories. -/
theorem writeFile_dirs (fs : FS) (p : String) (d : FileData) :
    (fs.writeFile p d).dirs = fs.dirs := by
  unfold FS.writeFile
  split <;> rfl

/-- Claim C9: for a valid dot-free tag `t` (slash-free, as tags are directory
names), a first `new t` creates exactly one new directory `./{t}` and one new
manifest `./{t}/{t}.toml` holding the default template, and a second `new t`
fails with `AlreadyExists` leaving the filesystem — in particular the file
created by the first call — unchanged. -/
theorem C9_new_scaffold_exclusive (t : String) (w : World)
    (hdot : strContains t '.' = false)
    (hslash : '/' ∉ t.data)
    (hfile : w.fs.fileExists ("./" ++ t ++ "/" ++ t ++ ".toml") = false)
    (hdir : w.fs.dirExists ("./" ++ t) = false) :
    (new t w).1 = .ok () ∧
    (new t w).2.fs.dirs = w.fs.dirs ++ ["./" ++ t] ∧
    (new t w).2.fs.files
      = w.fs.files ++ [("./" ++ t ++ "/" ++ t ++ ".toml", .text DEFAULT_CONFIG_CONTENTS)] ∧
    (new t (new t w).2).1
      = .error (.alreadyExists ("./" ++ t ++ "/" ++ t ++ ".toml")) ∧
    (new t (new t w).2).2.fs = (new t w).2.fs := by
  have hpp := parentPath_manifest t hslash
  have hfe : ((w.fs.mkdirAll ("./" ++ t)).fileExists ("./" ++ t ++ "/" ++ t ++ ".toml"))
      = false := by
    rw [mkdirAll_fileExists]
    exact hfile
  have hnew : new t w
      = (.ok (), { w with
          fs := (w.fs.mkdirAll ("./" ++ t)).writeFile ("./" ++ t ++ "/" ++ t ++ ".toml")
                  (.text DEFAULT_CONFIG_CONTENTS),
          log := w.log ++ ["New config file " ++ t] }) := by
    unfold new make_new_doot
    simp [hdot, hpp, hfe]
  have hlook : w.fs.files.lookup ("./" ++ t ++ "/" ++ t ++ ".toml") = none := by
    unfold FS.fileExists FS.readFile at hfile
    cases hcase : w.fs.files.lookup ("./" ++ t ++ "/" ++ t ++ ".toml") with
    | none => rfl
    | some v =>
      rw [hcase] at hfile
      simp at hfile
  have hdir2 :
      ((w.fs.mkdirAll ("./" ++ t)).writeFile ("./" ++ t ++ "/" ++ t ++ ".toml")
        (.text DEFAULT_CONFIG_CONTENTS)).dirExists ("./" ++ t) = true := by
    unfold FS.dirExists
    rw [writeFile_dirs, mkdirAll_dirs_new _ _ hdir]
    exact contains_append_self _ _
  have hfile2 :
      ((w.fs.mkdirAll ("./" ++ t)).writeFile ("./" ++ t ++ "/" ++ t ++ ".toml")
        (.text DEFAULT_CONFIG_CONTENTS)).fileExists ("./" ++ t ++ "/" ++ t ++ ".toml")
      = true := by
    unfold FS.fileExists FS.readFile
    rw [writeFile_new _ _ _ hfe, mkdirAll_files]
    rw [lookup_append_of_none _ _ _ hlook]
    simp [List.lookup_cons]
  refine ⟨?_, ?_, ?_, ?_, ?_⟩
  · rw [hnew]
  · rw [hnew]
    show ((w.fs.mkdirAll ("./" ++ t)).writeFile _ _).dirs = _
    rw [writeFile_dirs, mkdirAll_dirs_new _ _ hdir]
  · rw [hnew]
    show ((w.fs.mkdirAll ("./" ++ t)).writeFile _ _).files = _
    rw [writeFile_new _ _ _ hfe, mkdirAll_files]
  · rw [hnew]
    unfold new make_new_doot
    simp [hdot, hpp, mkdirAll_exists _ _ hdir2, hfile2]
  · rw [hnew]
    unfold new make_new_doot
    simp [hdot, hpp, mkdirAll_exists _ _ hdir2, hfile2]

/-- An empty starting world for the C9 witness. -/
def W_C9 : World := ⟨⟨[], []⟩, none, ".", [], []⟩

/-- Witness for C9 at the concrete tag `"cfg"`. -/
theorem C9_witness :
    (new "cfg" W_C9).1 = .ok () ∧
    (new "cfg" W_C9).2.fs.dirs = W_C9.fs.dirs ++ ["./cfg"] ∧
    (new "cfg" W_C9).2.fs.files
      = W_C9.fs.files ++ [("./cfg/cfg.toml", .text DEFAULT_CONFIG_CONTENTS)] ∧
    (new "cfg" (new "cfg" W_C9).2).1 = .error (.alreadyExists "./cfg/cfg.toml") ∧
    (new "cfg" (new "cfg" W_C9).2).2.fs = (new "cfg" W_C9).2.fs :=
  C9_new_scaffold_exclusive "cfg" W_C9 rfl (by decide) rfl rfl

end Dotter
